import Mathlib

/- Verification of the document-analysis-driven attack configuration pipeline
   (DocumentAnalyzer / attack catalog / variant composer) of the
   AI-Resistant-Exams repository, as implemented in generalized_attack.py.
   Strings are modelled as lists of characters; Python float parameters are
   modelled as exact rationals; the Python regular-expression scans used by
   the analyzer are modelled by dedicated executable scanners that follow
   the semantics of the concrete patterns appearing in the source. The body
   transformer is fallible in the source (its symbol_stretch branch raises
   on every invocation), so it returns an optional result, and composition
   yields an assembled output only when the body phase succeeds. -/

/- Basic string model: Python str as a list of characters. -/

abbrev Str := List Char

def strL (s : String) : Str := s.data

/- Python s.startswith(pat) at the head of a list. -/
def isPrefixL : Str → Str → Bool
  | [], _ => true
  | _ :: _, [] => false
  | a :: as, b :: bs => a == b && isPrefixL as bs

/- Python `pat in s` substring test. -/
def containsSub : Str → Str → Bool
  | [], pat => isPrefixL pat []
  | s@(_ :: rest), pat => isPrefixL pat s || containsSub rest pat

/- Index of the first occurrence of pat in s, if any. -/
def firstMatchPos : Str → Str → Option Nat
  | [], pat => if isPrefixL pat [] then some 0 else none
  | s@(_ :: rest), pat =>
    if isPrefixL pat s then some 0
    else (firstMatchPos rest pat).map (fun n => n + 1)

/- Python s.find(pat): first index or -1. -/
def pyFind (s pat : Str) : Int :=
  match firstMatchPos s pat with
  | some n => (n : Int)
  | none => -1

/- Python s.replace(pat, rep) for an empty pattern: rep is inserted at
   every character boundary, including both ends. -/
def pyReplaceEmpty (rep : Str) : Str → Str
  | [] => rep
  | c :: rest => rep ++ c :: pyReplaceEmpty rep rest

/- Python s.replace(pat, rep) for a nonempty pattern: leftmost
   non-overlapping occurrences, scanning left to right; the fuel argument
   is only a structural-termination device (one unit per character of s,
   and each step consumes at least one character of s). -/
def pyReplaceCore (pat rep : Str) : Nat → Str → Str
  | 0, s => s
  | _ + 1, [] => []
  | fuel + 1, c :: rest =>
    if isPrefixL pat (c :: rest) then
      rep ++ pyReplaceCore pat rep fuel (List.drop pat.length (c :: rest))
    else
      c :: pyReplaceCore pat rep fuel rest

/- Python s.replace(pat, rep). -/
def pyReplace (s pat rep : Str) : Str :=
  match pat with
  | [] => pyReplaceEmpty rep s
  | _ :: _ => pyReplaceCore pat rep s.length s

/- The character set escaped by Python re.escape (CPython 3.7+). -/
def reSpecialChars : Str :=
  ['(', ')', '[', ']', '\x7b', '\x7d', '?', '*', '+', '-', '|', '^', '$',
   '\\', '.', '&', '~', '#', ' ', '\t', '\n', '\r', '\x0b', '\x0c']

/- Python re.escape. -/
def pyReEscape (s : Str) : Str :=
  (s.map (fun c => if c ∈ reSpecialChars then ['\\', c] else [c])).flatten

/- Python s.lower() (ASCII range, which is all the source exercises). -/
def lowerStr (s : Str) : Str := s.map Char.toLower

/- Python str(i) for an int. -/
def intToStr (i : Int) : Str :=
  if i < 0 then '-' :: (Nat.repr i.natAbs).data else (Nat.repr i.natAbs).data

/- Decimal digits of the fractional part num/den (0 ≤ num < den), with at
   most the given number of digits. -/
def fracDigits : Nat → Nat → Nat → Str
  | _, _, 0 => []
  | num, den, fuel + 1 =>
    if num = 0 then []
    else
      let num10 := num * 10
      Char.ofNat (48 + num10 / den) :: fracDigits (num10 % den) den fuel

/- Python str(f) for a float parameter, modelled on the exact rational:
   faithful for the terminating decimal values that occur in the source
   (e.g. -0.08 ↦ "-0.08", 1.1 ↦ "1.1", 2.0 ↦ "2.0"). -/
def ratToStr (q : ℚ) : Str :=
  let sgn : Str := if q < 0 then ['-'] else []
  let n := q.num.natAbs
  let d := q.den
  let ip := n / d
  let rm := n % d
  sgn ++ (Nat.repr ip).data ++ '.' :: (if rm = 0 then ['0'] else fracDigits rm d 25)

/- Elementary facts about the string model used by the claim proofs. -/

theorem isPrefixL_append (pat a b : Str) (h : isPrefixL pat a = true) :
    isPrefixL pat (a ++ b) = true := by
  induction pat generalizing a with
  | nil => simp [isPrefixL]
  | cons p ps ih =>
    cases a with
    | nil => simp [isPrefixL] at h
    | cons x xs =>
      simp [isPrefixL] at h ⊢
      exact ⟨h.1, ih xs h.2⟩

theorem contains_append_right (a b pat : Str) (h : containsSub b pat = true) :
    containsSub (a ++ b) pat = true := by
  induction a with
  | nil => simpa using h
  | cons c cs ih =>
    simp only [List.cons_append, containsSub, Bool.or_eq_true]
    exact Or.inr ih

theorem contains_append_left (a b pat : Str) (h : containsSub a pat = true) :
    containsSub (a ++ b) pat = true := by
  induction a with
  | nil =>
    cases pat with
    | nil => cases b <;> simp [containsSub, isPrefixL]
    | cons p ps => simp [containsSub, isPrefixL] at h
  | cons c cs ih =>
    simp only [containsSub, Bool.or_eq_true] at h
    rcases h with h | h
    · simp only [List.cons_append, containsSub, Bool.or_eq_true]
      exact Or.inl (isPrefixL_append _ _ _ h)
    · simp only [List.cons_append, containsSub, Bool.or_eq_true]
      exact Or.inr (ih h)

theorem pyReplaceCore_of_not_contains (pat rep : Str) (fuel : Nat) (s : Str)
    (h : containsSub s pat = false) : pyReplaceCore pat rep fuel s = s := by
  induction fuel generalizing s with
  | zero => simp [pyReplaceCore]
  | succ n ih =>
    cases s with
    | nil => simp [pyReplaceCore]
    | cons c rest =>
      simp only [containsSub, Bool.or_eq_false_iff] at h
      simp [pyReplaceCore, h.1, ih rest h.2]

theorem pyReplace_of_not_contains (s pat rep : Str)
    (h : containsSub s pat = false) : pyReplace s pat rep = s := by
  cases pat with
  | nil =>
    exfalso
    cases s <;> simp [containsSub, isPrefixL] at h
  | cons p ps => exact pyReplaceCore_of_not_contains _ _ _ _ h

/- Executable models of the regular-expression scans in DocumentAnalyzer.
   Each scanner follows the concrete pattern from generalized_attack.py,
   scanning positions left to right and continuing after each match
   (re.findall / re.finditer semantics); a fuel argument equal to the
   length of the scanned string serves as the structural termination
   measure (every step consumes at least one character). -/

def envNames : List Str :=
  [strL "align", strL "equation", strL "gather", strL "multline", strL "array",
   strL "matrix", strL "pmatrix", strL "bmatrix", strL "vmatrix"]

def strBeginBrace : Str := strL "\\begin\x7b"

def strEndBrace : Str := strL "\\end\x7b"

/- The environment-name alternative that matches at the head of s (the
   name must be followed by a closing brace). -/
def envNameAt (s : Str) : Option Str :=
  envNames.find? (fun n => isPrefixL (n ++ ['\x7d']) s)

/- Model of re.findall over the math-environment pattern with a
   backreference for the closing tag and a non-greedy DOTALL body. -/
def findMathEnvironmentsAux : Nat → Str → List (Str × Str)
  | 0, _ => []
  | _ + 1, [] => []
  | fuel + 1, s@(_ :: rest) =>
    if isPrefixL strBeginBrace s then
      match envNameAt (s.drop strBeginBrace.length) with
      | some name =>
        let body0 := (s.drop strBeginBrace.length).drop (name.length + 1)
        let closeTok := strEndBrace ++ name ++ ['\x7d']
        match firstMatchPos body0 closeTok with
        | some k =>
          (name, body0.take k) ::
            findMathEnvironmentsAux fuel (body0.drop (k + closeTok.length))
        | none => findMathEnvironmentsAux fuel rest
      | none => findMathEnvironmentsAux fuel rest
    else findMathEnvironmentsAux fuel rest

def findMathEnvironments (s : Str) : List (Str × Str) :=
  findMathEnvironmentsAux s.length s

/- Model of re.findall over the inline-math pattern (alternation of
   dollar-delimited and escaped-parenthesis-delimited math, non-greedy,
   DOTALL); each match yields the pair of capture groups, the unused
   group being empty as in Python. -/
def findInlineMathAux : Nat → Str → List (Str × Str)
  | 0, _ => []
  | _ + 1, [] => []
  | fuel + 1, s@(c :: rest) =>
    if c == '$' then
      match firstMatchPos rest ['$'] with
      | some k => (rest.take k, []) :: findInlineMathAux fuel (rest.drop (k + 1))
      | none => findInlineMathAux fuel rest
    else if isPrefixL (strL "\\(") s then
      match firstMatchPos (s.drop 2) (strL "\\)") with
      | some k =>
        ([], (s.drop 2).take k) :: findInlineMathAux fuel ((s.drop 2).drop (k + 2))
      | none => findInlineMathAux fuel rest
    else findInlineMathAux fuel rest

def findInlineMath (s : Str) : List (Str × Str) := findInlineMathAux s.length s

/- First index of the given character before any newline (the dot of a
   pattern compiled without DOTALL does not cross newlines). -/
def findCharSameLine (target : Char) : Str → Option Nat
  | [] => none
  | x :: rest =>
    if x == target then some 0
    else if x == '\n' then none
    else (findCharSameLine target rest).map (fun n => n + 1)

def strLabelBrace : Str := strL "\\label\x7b"

/- Model of re.sub replacing double backslashes and label commands by a
   space when cleaning a math-environment body. -/
def cleanEnvContentAux : Nat → Str → Str
  | 0, s => s
  | _ + 1, [] => []
  | fuel + 1, s@(c :: rest) =>
    if isPrefixL (strL "\\\\") s then
      ' ' :: cleanEnvContentAux fuel (s.drop 2)
    else if isPrefixL strLabelBrace s then
      match findCharSameLine '\x7d' (s.drop strLabelBrace.length) with
      | some k => ' ' :: cleanEnvContentAux fuel ((s.drop strLabelBrace.length).drop (k + 1))
      | none => c :: cleanEnvContentAux fuel rest
    else c :: cleanEnvContentAux fuel rest

def cleanEnvContent (s : Str) : Str := cleanEnvContentAux s.length s

/- Character class of the meaningful-expression pattern body. -/
def exprClassChar (c : Char) : Bool :=
  c.isAlphanum || c ∈ ['+', '-', '*', '/', '^', '\x7b', '\x7d', '(', ')']

def classRunLen : Str → Nat
  | [] => 0
  | c :: rest => if exprClassChar c then classRunLen rest + 1 else 0

def trailingAlnumAt (rest : Str) (m : Nat) : Bool :=
  match rest.get? m with
  | some ch => ch.isAlphanum
  | none => false

/- Greedy backtracking of the bounded repetition: the largest group
   length m with 3 ≤ m (descending from the maximal class run) whose
   following character is alphanumeric. -/
def bestExprM (rest : Str) : Nat → Option Nat
  | 0 => none
  | m + 1 =>
    if m + 1 < 3 then none
    else if trailingAlnumAt rest (m + 1) then some (m + 1)
    else bestExprM rest m

/- Model of re.findall over the meaningful-expression pattern: an
   alphanumeric head, at least three body-class characters (greedy), and
   an alphanumeric tail. -/
def findMeaningfulExprsAux : Nat → Str → List Str
  | 0, _ => []
  | _ + 1, [] => []
  | fuel + 1, c :: rest =>
    if c.isAlphanum then
      match bestExprM rest (classRunLen rest) with
      | some m => (c :: rest.take (m + 1)) :: findMeaningfulExprsAux fuel (rest.drop (m + 1))
      | none => findMeaningfulExprsAux fuel rest
    else findMeaningfulExprsAux fuel rest

def findMeaningfulExprs (s : Str) : List Str := findMeaningfulExprsAux s.length s

/- Braced argument of the package and document-class patterns: an opening
   brace, a non-greedy same-line body, and the first closing brace. -/
def matchBracesFrom : Str → Option (Str × Str)
  | '\x7b' :: r =>
    match findCharSameLine '\x7d' r with
    | some k => some (r.take k, r.drop (k + 1))
    | none => none
  | _ => none

/- Lazy bracketed-option matching with backtracking: the shortest
   same-line option text whose closing bracket is followed by a valid
   braced argument; on failure of the braced argument the option text is
   extended past the closing bracket, as the regex engine would. -/
def bracketSearchAux : Nat → Str → Option (Str × Str × Str)
  | 0, _ => none
  | fuel + 1, r =>
    match findCharSameLine ']' r with
    | none => none
    | some j =>
      match matchBracesFrom (r.drop (j + 1)) with
      | some (name, rest) => some (r.take j, name, rest)
      | none =>
        match bracketSearchAux fuel (r.drop (j + 1)) with
        | some (opts2, name, rest) => some (r.take j ++ ']' :: opts2, name, rest)
        | none => none

/- The optional-bracket-then-braces tail shared by the package and
   document-class patterns; yields (options, argument, remainder). -/
def matchOptBracesArgs (t : Str) : Option (Option Str × Str × Str) :=
  match t with
  | '[' :: r =>
    match bracketSearchAux r.length r with
    | some (opts, name, rest) => some (some opts, name, rest)
    | none => none
  | _ =>
    match matchBracesFrom t with
    | some (name, rest) => some (none, name, rest)
    | none => none

def strUsepackage : Str := strL "\\usepackage"

/- Model of re.finditer over the package pattern. -/
def extractPackagesAux : Nat → Str → List (Str × Str)
  | 0, _ => []
  | _ + 1, [] => []
  | fuel + 1, s@(_ :: rest) =>
    if isPrefixL strUsepackage s then
      match matchOptBracesArgs (s.drop strUsepackage.length) with
      | some (opts, name, restAfter) =>
        (name, opts.getD []) :: extractPackagesAux fuel restAfter
      | none => extractPackagesAux fuel rest
    else extractPackagesAux fuel rest

def extractPackages (s : Str) : List (Str × Str) := extractPackagesAux s.length s

def strDocumentclass : Str := strL "\\documentclass"

/- Model of re.search over the document-class pattern (first match). -/
def extractDocumentClassAux : Nat → Str → Option (Str × Str)
  | 0, _ => none
  | _ + 1, [] => none
  | fuel + 1, s@(_ :: rest) =>
    if isPrefixL strDocumentclass s then
      match matchOptBracesArgs (s.drop strDocumentclass.length) with
      | some (opts, name, _) => some (name, opts.getD [])
      | none => extractDocumentClassAux fuel rest
    else extractDocumentClassAux fuel rest

def extractDocumentClass (s : Str) : Str × Str :=
  (extractDocumentClassAux s.length s).getD (strL "article", [])

def strBeginFigure : Str := strL "\\begin\x7bfigure\x7d"

def strEndFigure : Str := strL "\\end\x7bfigure\x7d"

/- Model of re.split with a captured figure-environment group: the result
   alternates unmatched text parts (even indices) and matched figure
   environments (odd indices). -/
def splitFigurePartsAux : Nat → Str → List Str
  | 0, s => [s]
  | fuel + 1, s =>
    match firstMatchPos s strBeginFigure with
    | none => [s]
    | some p =>
      match firstMatchPos ((s.drop p).drop strBeginFigure.length) strEndFigure with
      | none => [s]
      | some q =>
        s.take p ::
          (strBeginFigure ++ ((s.drop p).drop strBeginFigure.length).take q ++ strEndFigure) ::
          splitFigurePartsAux fuel
            (((s.drop p).drop strBeginFigure.length).drop (q + strEndFigure.length))

def splitFigureParts (s : Str) : List Str := splitFigurePartsAux s.length s

/- DocumentAnalyzer: the structural facts derived from a LaTeX source. -/

structure DocumentAnalyzer where
  tex_content : Str
  has_figures : Bool
  has_enums : Bool
  has_complex_math : Bool
  math_environments : List (Str × Str)
  math_expressions : List (Str × Str)
  document_class : Str × Str
  packages : List (Str × Str)

/- Constructor of DocumentAnalyzer (its Python initializer). -/
def DocumentAnalyzer.init (tex_content : Str) : DocumentAnalyzer :=
  { tex_content := tex_content
    has_figures := containsSub tex_content strBeginFigure ||
      containsSub tex_content (strL "\\includegraphics")
    has_enums := containsSub tex_content (strL "\\begin\x7benumerate\x7d")
    has_complex_math := containsSub tex_content (strL "\\begin\x7balign\x7d") ||
      containsSub tex_content (strL "\\begin\x7bequation\x7d")
    math_environments := findMathEnvironments tex_content
    math_expressions := findInlineMath tex_content
    document_class := extractDocumentClass tex_content
    packages := extractPackages tex_content }

/- Subject-indicator checks of get_subject_hint, in source order. -/

def calcIndicator (low : Str) : Bool :=
  containsSub low (strL "calculus") || containsSub low (strL "derivative") ||
    containsSub low (strL "\\frac\x7bd\x7d\x7bdx\x7d")

def probIndicator (low : Str) : Bool :=
  containsSub low (strL "probability") || containsSub low (strL "random")

def linAlgIndicator (low : Str) : Bool :=
  containsSub low (strL "linear algebra") || containsSub low (strL "\\begin\x7bmatrix\x7d")

def complexIndicator (low : Str) : Bool :=
  containsSub low (strL "complex") &&
    (containsSub low (strL "analysis") || containsSub low (strL "variable"))

def discreteIndicator (low : Str) : Bool :=
  containsSub low (strL "discrete") || containsSub low (strL "graph")

def mlIndicator (low : Str) : Bool :=
  containsSub low (strL "machine learning") || containsSub low (strL "neural")

/- The fixed-priority subject classification of get_subject_hint. -/
def subjectHintOfContent (s : Str) : Str :=
  let low := lowerStr s
  if calcIndicator low then strL "calculus"
  else if probIndicator low then strL "probability"
  else if linAlgIndicator low then strL "linear_algebra"
  else if complexIndicator low then strL "complex_analysis"
  else if discreteIndicator low then strL "discrete_math"
  else if mlIndicator low then strL "machine_learning"
  else strL "general_math"

def DocumentAnalyzer.get_subject_hint (a : DocumentAnalyzer) : Str :=
  subjectHintOfContent a.tex_content

/- Candidates extracted from math-environment bodies, filtered as in the
   source (length over five, not starting with a control sequence). -/
def envCandidates (a : DocumentAnalyzer) : List Str :=
  (a.math_environments.map (fun env =>
    (findMeaningfulExprs (cleanEnvContent env.2)).filter
      (fun expr => decide (5 < expr.length) && !(isPrefixL (strL "\\") expr)))).flatten

/- Fallback candidates from inline math expressions (first nonempty
   capture group, length over five, no control-sequence filter). -/
def inlineFallbackCandidates (a : DocumentAnalyzer) : List Str :=
  (a.math_expressions.map (fun expr => if expr.1 ≠ [] then expr.1 else expr.2)).filter
    (fun t => decide (5 < t.length))

def DocumentAnalyzer.get_target_math_for_attacks (a : DocumentAnalyzer) : List Str :=
  let candidates := envCandidates a
  let candidates :=
    if candidates.length < 3 then candidates ++ inlineFallbackCandidates a
    else candidates
  candidates.take 5

/- Attack model: a Simple attack is a type tag with a parameter record; a
   Composite attack (tag combo) additionally holds its ordered sub-attacks
   (the sub_attacks entry of the params mapping in the source). Parameter
   fields are optional, mirroring dict.get with a default; numeric
   parameters that are Python floats are modelled as exact rationals. -/

structure AttackParams where
  text : Option Str := none
  color : Option Str := none
  angle : Option Int := none
  size : Option Int := none
  x_step : Option Int := none
  y_step : Option Int := none
  pattern : Option Str := none
  density : Option ℚ := none
  amount : Option ℚ := none
  symbol_to_swap : Option Str := none
  font_name : Option Str := none
  target : Option Str := none
  mode : Option Str := none
  factor : Option ℚ := none
  x_scale : Option ℚ := none
  y_scale : Option ℚ := none

inductive AttackSpec where
  | mk (type : Str) (params : AttackParams) (sub_attacks : List AttackSpec)

def AttackSpec.type : AttackSpec → Str
  | .mk t _ _ => t

def AttackSpec.params : AttackSpec → AttackParams
  | .mk _ p _ => p

def AttackSpec.sub_attacks : AttackSpec → List AttackSpec
  | .mk _ _ s => s

def strWatermark : Str := strL "watermark"

def strWatermarkTiled : Str := strL "watermark_tiled"

def strTexture : Str := strL "texture"

def strFontSwap : Str := strL "font_swap"

def strBackgroundColor : Str := strL "background_color"

def strKerning : Str := strL "kerning"

def strLineSpacing : Str := strL "line_spacing"

def strSymbolStretch : Str := strL "symbol_stretch"

def strCombo : Str := strL "combo"

/- The shared page-dimension setup block. -/
def dimension_setup : Str :=
  strL "\n\\usepackage\x7blayouts\x7d\n\\usepackage\x7batbegshi\x7d\n\\newlength\\pgwidth\n\\newlength\\pgheight\n\\AtBeginDocument\x7b%\n  \\pgwidth=\\paperwidth\n  \\pgheight=\\paperheight\n\x7d\n"

def needsDimensionSetup (attack_type : Str) : Bool :=
  decide (attack_type = strWatermarkTiled ∨ attack_type = strTexture ∨
    attack_type = strBackgroundColor)

def docFigs : Option DocumentAnalyzer → Bool
  | some a => a.has_figures
  | none => false

/- Context-level gates of the preamble generator, one definition per
   level-gated adaptation of the source. -/

def dimsPackageCheckGate (context_level : Nat) (d : Option DocumentAnalyzer) : Bool :=
  decide (2 ≤ context_level) && d.isSome

def watermarkColorAdjusted (context_level : Nat) (d : Option DocumentAnalyzer) : Bool :=
  decide (2 ≤ context_level) && docFigs d

def tiledStepAdjusted (context_level : Nat) (d : Option DocumentAnalyzer) : Bool :=
  decide (1 ≤ context_level) && docFigs d

def tiledTextAdjusted (context_level : Nat) (params : AttackParams)
    (d : Option DocumentAnalyzer) : Bool :=
  decide (3 ≤ context_level) && d.isSome && params.text.isNone

def textureDensityAdjusted (context_level : Nat) (d : Option DocumentAnalyzer) : Bool :=
  decide (1 ≤ context_level) && docFigs d

def texturePatternAdjusted (context_level : Nat) (params : AttackParams)
    (d : Option DocumentAnalyzer) : Bool :=
  decide (3 ≤ context_level) && d.isSome && params.pattern.isNone

def fontSwapSymbolAdjusted (context_level : Nat) (params : AttackParams)
    (d : Option DocumentAnalyzer) : Bool :=
  decide (2 ≤ context_level) && d.isSome && params.symbol_to_swap.isNone

def strLayouts : Str := strL "layouts"

/- Dimension-setup contribution of get_preamble_code: at level two and
   above with an analyzer, the setup is skipped when the layouts package
   is already present in the document. -/
def dimsCode (attack_type : Str) (context_level : Nat) (d : Option DocumentAnalyzer) : Str :=
  if dimsPackageCheckGate context_level d then
    match d with
    | some a =>
      if a.packages.any (fun p => decide (p.1 = strLayouts)) then []
      else if needsDimensionSetup attack_type then dimension_setup else []
    | none => if needsDimensionSetup attack_type then dimension_setup else []
  else if needsDimensionSetup attack_type then dimension_setup else []

def strWATERMARK : Str := strL "WATERMARK"

/- Subject-specific tiled-watermark text (dict lookup with fallback). -/
def subjectTiledText (subject fallback : Str) : Str :=
  if subject = strL "calculus" then strL "f\\\x27(x)"
  else if subject = strL "complex_analysis" then strL "f(z)"
  else if subject = strL "discrete_math" then strL "G(V,E)"
  else if subject = strL "linear_algebra" then strL "A\\vec\x7bx\x7d"
  else if subject = strL "probability" then strL "P(X)"
  else if subject = strL "machine_learning" then strL "\\nabla J"
  else fallback

/- Effective tiled-watermark text after the level-three adaptation. -/
def tiledEffText (params : AttackParams) (context_level : Nat)
    (d : Option DocumentAnalyzer) : Str :=
  let text := params.text.getD strWATERMARK
  if tiledTextAdjusted context_level params d then
    match d with
    | some a => subjectTiledText a.get_subject_hint text
    | none => text
  else text

/- Effective tiled-watermark steps after the level-one adaptation. -/
def tiledEffXStep (params : AttackParams) (context_level : Nat)
    (d : Option DocumentAnalyzer) : Int :=
  params.x_step.getD 5 + (if tiledStepAdjusted context_level d then 1 else 0)

def tiledEffYStep (params : AttackParams) (context_level : Nat)
    (d : Option DocumentAnalyzer) : Int :=
  params.y_step.getD 4 + (if tiledStepAdjusted context_level d then 1 else 0)

def strGray10 : Str := strL "gray!10"

def strGray8 : Str := strL "gray!8"

/- Rendered watermark preamble block. -/
def watermarkCode (text color : Str) (angle size : Int) : Str :=
  strL "\n\\usepackage\x7beso-pic\x7d\n\\AddToShipoutPictureBG\x7b%\n  \\AtPageCenter\x7b%\n    \\rotatebox\x7b" ++
  intToStr angle ++ strL "\x7d\x7b%\n      \\scalebox\x7b" ++ intToStr size ++
  strL "\x7d\x7b%\n        \\textcolor\x7b" ++ color ++ strL "\x7d\x7b" ++ text ++
  strL "\x7d%\n      \x7d%\n    \x7d%\n  \x7d%\n\x7d\n"

/- Loop-header chunk of the tiled-watermark block, holding both rendered
   foreach bounds. -/
def wmtLoopChunk (x_step y_step : Int) : Str :=
  strL "\n\\AddToShipoutPictureBG\x7b%\n  \\begin\x7btikzpicture\x7d[remember picture, overlay]\n    % Fixed loop to use fixed steps instead of calculated dimensions\n    \\foreach \\x in \x7b1," ++
  intToStr (1 + x_step) ++
  strL ",...,20\x7d \x7b\n      \\foreach \\y in \x7b1," ++
  intToStr (1 + y_step) ++
  strL ",...,28\x7d \x7b\n        \\node[rotate="

/- Rendered tiled-watermark preamble block. -/
def watermarkTiledCode (text color : Str) (size angle x_step y_step : Int) : Str :=
  wmtLoopChunk x_step y_step ++
  (intToStr angle ++ strL ", color=" ++ color ++
   strL ", anchor=center] at (\\x cm, \\y cm) \x7b\\fontsize\x7b" ++ intToStr size ++
   strL "\x7d\x7b" ++ intToStr (size + 2) ++ strL "\x7d\\selectfont $" ++ text ++
   strL "$\x7d;\n      \x7d\n    \x7d\n  \\end\x7btikzpicture\x7d%\n\x7d\n")

def textureBaseDensity (params : AttackParams) : ℚ := params.density.getD (7/10)

/- Effective texture density after the level-one figure adaptation. -/
def textureEffDensity (params : AttackParams) (context_level : Nat)
    (d : Option DocumentAnalyzer) : ℚ :=
  if textureDensityAdjusted context_level d then textureBaseDensity params * (8/10)
  else textureBaseDensity params

/- Step computation of the texture generator (guarded division). -/
def textureStep (density : ℚ) : ℚ := if 0 < density then 2 / density else 2

def textureEffStep (params : AttackParams) (context_level : Nat)
    (d : Option DocumentAnalyzer) : ℚ :=
  textureStep (textureEffDensity params context_level d)

def textureEffColor (params : AttackParams) (context_level : Nat)
    (d : Option DocumentAnalyzer) : Str :=
  let color := params.color.getD strGray10
  if textureDensityAdjusted context_level d then pyReplace color strGray10 strGray8
  else color

/- Subject-specific texture pattern (dict lookup with fallback). -/
def subjectTexturePattern (subject fallback : Str) : Str :=
  if subject = strL "calculus" then strL "wave"
  else if subject = strL "complex_analysis" then strL "circles"
  else if subject = strL "discrete_math" then strL "grid"
  else if subject = strL "linear_algebra" then strL "lines"
  else if subject = strL "probability" then strL "dots"
  else if subject = strL "machine_learning" then strL "dots"
  else fallback

def textureEffPattern (params : AttackParams) (context_level : Nat)
    (d : Option DocumentAnalyzer) : Str :=
  let pattern := params.pattern.getD (strL "dots")
  if texturePatternAdjusted context_level params d then
    match d with
    | some a => subjectTexturePattern a.get_subject_hint pattern
    | none => pattern
  else pattern

/- Rendered texture preamble block, one template per pattern; an unknown
   pattern contributes nothing. -/
def textureCode (pattern color : Str) (step : ℚ) : Str :=
  if pattern = strL "dots" then
    strL "\n\\AddToShipoutPictureBG\x7b%\n  \\begin\x7btikzpicture\x7d[remember picture, overlay]\n    \\foreach \\x in \x7b0," ++
    ratToStr step ++ strL ",...,20\x7d \x7b\n      \\foreach \\y in \x7b0," ++
    ratToStr step ++ strL ",...,28\x7d \x7b\n        \\node[circle, fill=" ++ color ++
    strL ", inner sep=0.2pt] at (\\x cm, \\y cm) \x7b\x7d;\n      \x7d\n    \x7d\n  \\end\x7btikzpicture\x7d%\n\x7d"
  else if pattern = strL "lines" then
    strL "\n\\AddToShipoutPictureBG\x7b%\n  \\begin\x7btikzpicture\x7d[remember picture, overlay]\n    \\foreach \\x in \x7b0," ++
    ratToStr step ++ strL ",...,20\x7d \x7b\\draw[" ++ color ++
    strL ", thin] (\\x,0) -- (\\x,28);\x7d\n    \\foreach \\y in \x7b0," ++
    ratToStr step ++ strL ",...,28\x7d \x7b\\draw[" ++ color ++
    strL ", thin] (0,\\y) -- (20,\\y);\x7d\n  \\end\x7btikzpicture\x7d%\n\x7d"
  else if pattern = strL "wave" then
    strL "\n\\AddToShipoutPictureBG\x7b%\n  \\begin\x7btikzpicture\x7d[remember picture, overlay]\n    \\foreach \\i in \x7b0,1,...,20\x7d \x7b\n      \\draw[" ++
    color ++
    strL ", thin] \n        plot[domain=0:20, samples=100, smooth] \n        (\\x, \x7b\\i*" ++
    ratToStr step ++ strL " + 0.1*sin(\\x*90)\x7d);\n    \x7d\n  \\end\x7btikzpicture\x7d%\n\x7d"
  else if pattern = strL "circles" then
    strL "\n\\AddToShipoutPictureBG\x7b%\n  \\begin\x7btikzpicture\x7d[remember picture, overlay]\n    \\foreach \\i in \x7b1,2,...,10\x7d \x7b\n      \\draw[" ++
    color ++ strL ", thin] (10,14) circle (\\i*" ++ ratToStr (step * 2) ++
    strL "cm);\n    \x7d\n  \\end\x7btikzpicture\x7d%\n\x7d"
  else if pattern = strL "grid" then
    strL "\n\\AddToShipoutPictureBG\x7b%\n  \\begin\x7btikzpicture\x7d[remember picture, overlay]\n    \\draw[" ++
    color ++ strL ", thin, step=" ++ ratToStr step ++
    strL "cm] (0,0) grid (20,28);\n  \\end\x7btikzpicture\x7d%\n\x7d"
  else []

def strPlusSym : Str := strL "+"

/- Command name derived from a symbol: its alphanumeric characters after
   a fixed stem, with a fixed fallback when none remain. -/
def fontSwapCommandName (symbol : Str) : Str :=
  let safe_name := symbol.filter Char.isAlphanum
  strL "\\weird" ++ (if safe_name = [] then strL "weirdsymbol" else safe_name)

/- Subject-specific font-swap symbol (dict lookup with fallback). -/
def subjectFontSwapSymbol (subject fallback : Str) : Str :=
  if subject = strL "calculus" then strL "+"
  else if subject = strL "complex_analysis" then strL "z"
  else if subject = strL "discrete_math" then strL "\\in"
  else if subject = strL "linear_algebra" then strL "="
  else if subject = strL "probability" then strL "("
  else if subject = strL "machine_learning" then strL "\\theta"
  else fallback

/- Effective font-swap symbol of the preamble generator after the
   level-two adaptation. -/
def fontSwapEffSymbol (params : AttackParams) (context_level : Nat)
    (d : Option DocumentAnalyzer) : Str :=
  let symbol := params.symbol_to_swap.getD strPlusSym
  if fontSwapSymbolAdjusted context_level params d then
    match d with
    | some a => subjectFontSwapSymbol a.get_subject_hint symbol
    | none => symbol
  else symbol

/- Rendered font-swap preamble block. -/
def fontSwapCode (font_name command_name symbol : Str) : Str :=
  strL "\n% Ensure fontspec is loaded with proper options\n\\RequirePackage\x7bfontspec\x7d\n\\newfontfamily\\weirdfont\x7b" ++
  font_name ++ strL "\x7d[Scale=1.0]\n\\newcommand\x7b" ++ command_name ++
  strL "\x7d\x7b\x7b\\weirdfont " ++ symbol ++ strL "\x7d\x7d\n"

/- Rendered background-color preamble block, one template per mode. -/
def backgroundColorCode (mode color : Str) : Str :=
  if mode = strL "full" then
    strL "\n\\AddToShipoutPictureBG\x7b%\n  \\begin\x7btikzpicture\x7d[remember picture, overlay]\n    \\fill[" ++
    color ++
    strL "] (current page.south west) rectangle (current page.north east);\n  \\end\x7btikzpicture\x7d%\n\x7d"
  else if mode = strL "gradient" then
    strL "\n\\AddToShipoutPictureBG\x7b%\n  \\begin\x7btikzpicture\x7d[remember picture, overlay]\n    \\shade[left color=" ++
    color ++
    strL ", right color=white] \n      (current page.south west) rectangle (current page.north east);\n  \\end\x7btikzpicture\x7d%\n\x7d"
  else if mode = strL "sections" then
    strL "\n\\AddToShipoutPictureBG\x7b%\n  \\begin\x7btikzpicture\x7d[remember picture, overlay]\n    \\foreach \\i in \x7b0,2,...,28\x7d \x7b\n      \\fill[" ++
    color ++ strL "] (0, \\i) rectangle (20, \\i+1);\n    \x7d\n  \\end\x7btikzpicture\x7d%\n\x7d"
  else []

/- Preamble generator of generalized_attack.py. -/
def get_preamble_code (attack_params : AttackSpec) (context_level : Nat)
    (d : Option DocumentAnalyzer) : Str :=
  let attack_type := attack_params.type
  let params := attack_params.params
  let code := dimsCode attack_type context_level d
  if attack_type = strWatermark then
    let text := params.text.getD (strL "EXAM COPY")
    let color := params.color.getD strGray10
    let angle := params.angle.getD 45
    let size := params.size.getD 5
    let color :=
      if watermarkColorAdjusted context_level d then pyReplace color strGray10 strGray8
      else color
    code ++ watermarkCode text color angle size
  else if attack_type = strWatermarkTiled then
    code ++ watermarkTiledCode (tiledEffText params context_level d)
      (params.color.getD (strL "gray!12")) (params.size.getD 8) (params.angle.getD 30)
      (tiledEffXStep params context_level d) (tiledEffYStep params context_level d)
  else if attack_type = strTexture then
    code ++ textureCode (textureEffPattern params context_level d)
      (textureEffColor params context_level d) (textureEffStep params context_level d)
  else if attack_type = strFontSwap then
    let symbol := fontSwapEffSymbol params context_level d
    fontSwapCode (params.font_name.getD (strL "Comic Sans MS"))
      (fontSwapCommandName symbol) symbol
  else if attack_type = strBackgroundColor then
    code ++ backgroundColorCode (params.mode.getD (strL "full"))
      (params.color.getD (strL "yellow!3"))
  else code

def strMkern : Str := strL "\\mkern"

/- Alternating wrap of re.split parts for the line-spacing attack: text
   parts (even indices) receive the spacing directive, figure parts are
   kept unchanged. -/
def lineSpreadParts (factor : ℚ) : List Str → Bool → Str
  | [], _ => []
  | p :: rest, isText =>
    (if isText then strL "\\linespread\x7b" ++ ratToStr factor ++ '\x7d' :: p else p) ++
      lineSpreadParts factor rest (!isText)

/- Body transformer of generalized_attack.py. It is fallible: the
   symbol_stretch branch feeds a replacement template holding the
   stretchedsymbol command, hence the escape sequence backslash-s, to
   re.sub, which CPython rejects as a bad escape before any matching, so
   that branch raises on every invocation; none models the raise. -/
def modify_body_content (content : Str) (attack_params : AttackSpec)
    (context_level : Nat) (d : Option DocumentAnalyzer) : Option Str :=
  let attack_type := attack_params.type
  let params := attack_params.params
  if attack_type = strKerning then
    let amount := params.amount.getD (-5/100 : ℚ)
    match params.target with
    | some target =>
      let mathPattern := '$' :: pyReEscape target ++ ['$']
      let replacement := '$' :: target ++ strMkern ++ ratToStr amount ++ strL "em$"
      some (pyReplace content mathPattern replacement)
    | none =>
      match d with
      | some a =>
        if 2 ≤ context_level then
          some ((a.get_target_math_for_attacks).foldl (fun mc target =>
            if target.length < 5 then mc
            else pyReplace mc target (target ++ strMkern ++ ratToStr amount ++ strL "em"))
            content)
        else some content
      | none => some content
  else if attack_type = strFontSwap then
    let symbol := params.symbol_to_swap.getD strPlusSym
    let command_name := fontSwapCommandName symbol
    match d with
    | some a =>
      if 3 ≤ context_level then
        if a.has_complex_math then
          some (a.math_environments.foldl (fun mc env =>
            pyReplace mc
              (strBeginBrace ++ env.1 ++ '\x7d' :: env.2 ++ strEndBrace ++ env.1 ++ ['\x7d'])
              (strBeginBrace ++ env.1 ++ '\x7d' :: pyReplace env.2 symbol command_name ++
                strEndBrace ++ env.1 ++ ['\x7d'])) content)
        else some (pyReplace content symbol command_name)
      else some (pyReplace content symbol command_name)
    | none => some (pyReplace content symbol command_name)
  else if attack_type = strLineSpacing then
    let factor := params.factor.getD (11/10 : ℚ)
    match d with
    | some a =>
      if 1 ≤ context_level ∧ a.has_figures = true then
        some (lineSpreadParts factor (splitFigureParts content) true)
      else some (strL "\\linespread\x7b" ++ ratToStr factor ++ '\x7d' :: content)
    | none => some (strL "\\linespread\x7b" ++ ratToStr factor ++ '\x7d' :: content)
  else if attack_type = strSymbolStretch then
    none
  else some content

def strUsepkgLayouts : Str := strL "\\usepackage\x7blayouts\x7d"

def strAddToShipout : Str := strL "\\AddToShipoutPictureBG"

/- One step of the combo preamble accumulation, with the special
   texture-after-tiled-watermark duplicate-setup strip rule. -/
def comboPreambleStep (all_types : List Str) (context_level : Nat)
    (d : Option DocumentAnalyzer) (acc : Str) (sub_attack : AttackSpec) : Str :=
  if sub_attack.type = strTexture ∧ strWatermarkTiled ∈ all_types then
    let preamble_code := get_preamble_code sub_attack context_level d
    if containsSub preamble_code strUsepkgLayouts = true ∧
        containsSub acc strUsepkgLayouts = true then
      let setup_end := pyFind preamble_code strAddToShipout
      if 0 < setup_end then acc ++ preamble_code.drop setup_end.toNat else acc
    else acc ++ preamble_code
  else acc ++ get_preamble_code sub_attack context_level d

/- Preamble phase of a combo attack: fold over the ordered sub-attacks. -/
def comboPreamble (subs : List AttackSpec) (context_level : Nat)
    (d : Option DocumentAnalyzer) : Str :=
  subs.foldl (comboPreambleStep (subs.map AttackSpec.type) context_level d) []

/- Body phase of a combo attack: sequential application in list order; a
   raise in any member aborts the whole composition. -/
def comboBody (content : Str) (subs : List AttackSpec) (context_level : Nat)
    (d : Option DocumentAnalyzer) : Option Str :=
  subs.foldl (fun mc sub_attack =>
    mc.bind (fun c => modify_body_content c sub_attack context_level d)) (some content)

def wmToken : Str := strL "%%WATERMARK_AREA%%"

def trapToken : Str := strL "%%TRAP_QUESTION_AREA%%"

def beginDocToken : Str := strL "\\begin\x7bdocument\x7d"

/- The analyzer passed to the generators: built only at positive context
   levels. -/
def analyzerFor (template_content : Str) (context_level : Nat) : Option DocumentAnalyzer :=
  if 0 < context_level then some (DocumentAnalyzer.init template_content) else none

/- Preamble and body phases of create_exam_variant (combo or simple);
   the body phase carries the possible raise. -/
def composePhases (template_content : Str) (attack_params : AttackSpec)
    (context_level : Nat) : Str × Option Str :=
  let d := analyzerFor template_content context_level
  if attack_params.type = strCombo then
    (comboPreamble attack_params.sub_attacks context_level d,
     comboBody template_content attack_params.sub_attacks context_level d)
  else
    (get_preamble_code attack_params context_level d,
     modify_body_content template_content attack_params context_level d)

/- Placeholder substitution: the placeholder token if present, else a
   fallback substitution at the body-start marker. -/
def insertPreamble (preamble_mods modified_content : Str) : Str :=
  if containsSub modified_content wmToken = true then
    pyReplace modified_content wmToken preamble_mods
  else
    pyReplace modified_content beginDocToken (preamble_mods ++ '\n' :: beginDocToken)

/- Clearing of the unused trap-question placeholder. -/
def clearTrapArea (final_content : Str) : Str :=
  if containsSub final_content trapToken = true then pyReplace final_content trapToken []
  else final_content

/- Content-assembly portion of create_exam_variant: everything up to
   writing the variant file (file output and the compiler invocation are
   external collaborator steps outside the composition); none models a
   raise escaping from the body phase, which yields no assembled file. -/
def create_exam_variant_content (template_content : Str) (attack_params : AttackSpec)
    (context_level : Nat) : Option Str :=
  let phases := composePhases template_content attack_params context_level
  phases.2.map (fun mc => clearTrapArea (insertPreamble phases.1 mc))

/- Helper facts for the claim theorems. -/

theorem decide_le_decide_of_le (t k k' : Nat) (h : k ≤ k') :
    decide (t ≤ k) ≤ decide (t ≤ k') := by
  by_cases ht : t ≤ k
  · simp [ht, le_trans ht h]
  · simp [ht]

theorem band_le_band_left (a a' b : Bool) (h : a ≤ a') : (a && b) ≤ (a' && b) := by
  cases a <;> cases a' <;> cases b <;> simp_all

theorem symbol_stretch_body_raises (content : Str) (params : AttackParams)
    (subs : List AttackSpec) (context_level : Nat) (d : Option DocumentAnalyzer) :
    modify_body_content content (.mk strSymbolStretch params subs) context_level d =
      none := by
  simp +decide [modify_body_content, AttackSpec.type]

/- The complete list of attack-type tags with a branch in either
   generator or in the composer. -/
def knownAttackTags : List Str :=
  [strWatermark, strWatermarkTiled, strTexture, strFontSwap, strBackgroundColor,
   strKerning, strLineSpacing, strSymbolStretch, strCombo]

/-- C1: for a template containing the %%WATERMARK_AREA%% placeholder and a
Simple attack whose tag is not a known catalog tag, composing at context
level 0 generates an empty preamble, leaves the body unchanged, and yields
the template with the placeholder tokens (%%WATERMARK_AREA%%, and
%%TRAP_QUESTION_AREA%% if present) replaced by the empty string and no
other change. -/
theorem unknown_tag_composition_noop (template : Str) (atk : AttackSpec)
    (h1 : containsSub template wmToken = true)
    (h2 : atk.type ∉ knownAttackTags) :
    get_preamble_code atk 0 none = [] ∧
    modify_body_content template atk 0 none = some template ∧
    create_exam_variant_content template atk 0 =
      some (clearTrapArea (pyReplace template wmToken [])) := by
  simp only [knownAttackTags, List.mem_cons, List.not_mem_nil, or_false, not_or] at h2
  obtain ⟨n1, n2, n3, n4, n5, n6, n7, n8, n9⟩ := h2
  have hd : dimsCode atk.type 0 none = [] := by
    simp [dimsCode, dimsPackageCheckGate, needsDimensionSetup, n2, n3, n5]
  have hg : get_preamble_code atk 0 none = [] := by
    simp [get_preamble_code, hd, n1, n2, n3, n4, n5]
  have hb : modify_body_content template atk 0 none = some template := by
    simp [modify_body_content, n6, n4, n7, n8]
  refine ⟨hg, hb, ?_⟩
  simp [create_exam_variant_content, composePhases, analyzerFor, n9, hg, hb,
    insertPreamble, h1]

def unknownAtkC1 : AttackSpec := .mk (strL "mystery") {} []

def tmplC1 : Str := strL "%%WATERMARK_AREA%%\nbody %%TRAP_QUESTION_AREA%% tail"

/-- Witness for C1 at a concrete template and a concrete unknown tag. -/
theorem unknown_tag_composition_noop_witness :
    get_preamble_code unknownAtkC1 0 none = [] ∧
    modify_body_content tmplC1 unknownAtkC1 0 none = some tmplC1 ∧
    create_exam_variant_content tmplC1 unknownAtkC1 0 =
      some (clearTrapArea (pyReplace tmplC1 wmToken [])) :=
  unknown_tag_composition_noop tmplC1 unknownAtkC1 (by decide) (by decide)

/-- C4: the subject classification is a deterministic fixed-priority scan
of the lowercased source with calculus checked first, so any document
satisfying both the calculus-indicator and the probability-indicator
checks classifies as calculus. -/
theorem subject_hint_calculus_first (s : Str)
    (hc : calcIndicator (lowerStr s) = true)
    (_hp : probIndicator (lowerStr s) = true) :
    subjectHintOfContent s = strL "calculus" := by
  simp [subjectHintOfContent, hc]

/-- Witness for C4 on a document holding both a calculus keyword and a
probability keyword. -/
theorem subject_hint_calculus_first_witness :
    subjectHintOfContent (strL "calculus random") = strL "calculus" :=
  subject_hint_calculus_first (strL "calculus random") (by decide) (by decide)

/-- C7: for every texture attack the tiling step equals 2/density for a
positive (possibly level-one figure-adjusted) density and falls back to
the fixed default 2 for a nonpositive density, and the step is always
strictly positive (in particular never negative, and the division is
taken only under the positivity guard). -/
theorem texture_step_guarded (params : AttackParams) (context_level : Nat)
    (d : Option DocumentAnalyzer) :
    textureEffStep params context_level d =
      (if 0 < textureEffDensity params context_level d then
        2 / textureEffDensity params context_level d else 2) ∧
    0 < textureEffStep params context_level d := by
  constructor
  · rfl
  · unfold textureEffStep textureStep
    by_cases h : 0 < textureEffDensity params context_level d
    · simp only [h, if_true]
      exact div_pos two_pos h
    · simp only [h, if_false]
      norm_num

def amountC8 : ℚ := ⟨-2, 25, by decide, by decide⟩

def targetC8 : Str := strL "e^\x7bx^2\x7d"

def kernAtkC8 : AttackSpec :=
  .mk strKerning { amount := some amountC8, target := some targetC8 } []

def contentC8 : Str := strL "Consider $e^\x7bx^2\x7d$ now."

/-- C8: evaluation at the failing input of the kerning attack with amount
-0.08 and target containing regex-special characters: the verbatim
dollar-delimited target occurs in the body, yet the transform returns the
body unchanged, because the search string it builds is the regex-escaped
target used in a literal replace. -/
theorem kerning_target_escape_mismatch :
    containsSub contentC8 ('$' :: targetC8 ++ ['$']) = true ∧
    modify_body_content contentC8 kernAtkC8 0 none = some contentC8 := by decide

/-- C10: whenever the symbol is explicitly supplied or the context level
is below two, the command name defined by the font-swap preamble equals
the command name substituted by the font-swap body transform, and that
name is the fixed stem followed by the alphanumeric characters of the
symbol, with the fixed weirdsymbol fallback when none remain. -/
theorem font_swap_command_name_consistent (params : AttackParams) (context_level : Nat)
    (d : Option DocumentAnalyzer)
    (h : params.symbol_to_swap ≠ none ∨ context_level < 2) :
    fontSwapCommandName (fontSwapEffSymbol params context_level d) =
      fontSwapCommandName (params.symbol_to_swap.getD strPlusSym) ∧
    fontSwapCommandName (params.symbol_to_swap.getD strPlusSym) =
      strL "\\weird" ++
        (if (params.symbol_to_swap.getD strPlusSym).filter Char.isAlphanum = [] then
          strL "weirdsymbol"
        else (params.symbol_to_swap.getD strPlusSym).filter Char.isAlphanum) := by
  constructor
  · have hg : fontSwapSymbolAdjusted context_level params d = false := by
      rcases h with h | h
      · rcases heq : params.symbol_to_swap with _ | v
        · exact absurd heq h
        · simp [fontSwapSymbolAdjusted, heq]
      · simp [fontSwapSymbolAdjusted, Nat.not_le.mpr h]
    simp [fontSwapEffSymbol, hg]
  · rfl

def fontAtkParamsC10 : AttackParams := { symbol_to_swap := some (strL "=") }

/-- Witness for C10 at an explicitly supplied symbol with no alphanumeric
characters, at context level three. -/
theorem font_swap_command_name_consistent_witness :
    fontSwapCommandName (fontSwapEffSymbol fontAtkParamsC10 3 none) =
      fontSwapCommandName (fontAtkParamsC10.symbol_to_swap.getD strPlusSym) ∧
    fontSwapCommandName (fontAtkParamsC10.symbol_to_swap.getD strPlusSym) =
      strL "\\weird" ++
        (if (fontAtkParamsC10.symbol_to_swap.getD strPlusSym).filter Char.isAlphanum = [] then
          strL "weirdsymbol"
        else (fontAtkParamsC10.symbol_to_swap.getD strPlusSym).filter Char.isAlphanum) :=
  font_swap_command_name_consistent fontAtkParamsC10 3 none (Or.inl (by decide))

theorem comboPreambleStep_no_strip (all_types : List Str) (context_level : Nat)
    (d : Option DocumentAnalyzer) (acc : Str) (sa : AttackSpec)
    (h : sa.type ≠ strTexture) :
    comboPreambleStep all_types context_level d acc sa =
      acc ++ get_preamble_code sa context_level d := by
  simp [comboPreambleStep, h]

theorem comboPreamble_foldl_join (all_types : List Str) (context_level : Nat)
    (d : Option DocumentAnalyzer) (subs : List AttackSpec) (acc : Str)
    (h : ∀ sa ∈ subs, sa.type ≠ strTexture) :
    subs.foldl (comboPreambleStep all_types context_level d) acc =
      acc ++ (subs.map (fun sa => get_preamble_code sa context_level d)).flatten := by
  induction subs generalizing acc with
  | nil => simp
  | cons sa rest ih =>
    rw [List.foldl_cons, comboPreambleStep_no_strip _ _ _ _ _ (h sa (by simp)),
      ih _ (fun x hx => h x (by simp [hx]))]
    simp [List.append_assoc]

def fontAtkXC2 : AttackSpec := .mk strFontSwap { symbol_to_swap := some (strL "x") } []

def fontAtkWC2 : AttackSpec := .mk strFontSwap { symbol_to_swap := some (strL "w") } []

def comboFwdC2 : AttackSpec := .mk strCombo {} [fontAtkXC2, fontAtkWC2]

def comboRevC2 : AttackSpec := .mk strCombo {} [fontAtkWC2, fontAtkXC2]

def tmplC2 : Str := strL "%%WATERMARK_AREA%%\n\\begin\x7bdocument\x7d x w \\end\x7bdocument\x7d"

set_option maxRecDepth 20000 in
/-- C2: a combo attack composes by first accumulating every member's
preamble code in list order (plain order-preserving concatenation when no
texture member engages the duplicate-setup strip rule) and then applying
every member's body transform in list order to the evolving body, the
preamble phase completing before the body phase and an output being
assembled exactly when every member's body transform succeeds (a raising
member, such as symbol_stretch, aborts the composition); and for a
concrete two-member list, template and reordering, the assembled outputs
differ. -/
theorem combo_order_sensitivity (template : Str) (atk : AttackSpec)
    (context_level : Nat) (hc : atk.type = strCombo) :
    create_exam_variant_content template atk context_level =
      (comboBody template atk.sub_attacks context_level
          (analyzerFor template context_level)).map (fun mc =>
        clearTrapArea (insertPreamble
          (comboPreamble atk.sub_attacks context_level (analyzerFor template context_level))
          mc)) ∧
    (atk.sub_attacks.all (fun sa => decide (sa.type ≠ strTexture)) = true →
      comboPreamble atk.sub_attacks context_level (analyzerFor template context_level) =
        (atk.sub_attacks.map (fun sa =>
          get_preamble_code sa context_level (analyzerFor template context_level))).flatten) ∧
    create_exam_variant_content tmplC2 comboFwdC2 0 ≠
      create_exam_variant_content tmplC2 comboRevC2 0 := by
  refine ⟨?_, ?_, ?_⟩
  · simp [create_exam_variant_content, composePhases, hc]
  · intro hall
    have h : ∀ sa ∈ atk.sub_attacks, sa.type ≠ strTexture := by
      intro sa hsa
      have := List.all_eq_true.mp hall sa hsa
      simpa using this
    unfold comboPreamble
    rw [comboPreamble_foldl_join _ _ _ _ _ h]
    simp
  · decide

/-- Witness for C2 at the concrete template, combo and reordering. -/
theorem combo_order_sensitivity_witness :
    create_exam_variant_content tmplC2 comboFwdC2 0 =
      (comboBody tmplC2 comboFwdC2.sub_attacks 0 (analyzerFor tmplC2 0)).map (fun mc =>
        clearTrapArea (insertPreamble
          (comboPreamble comboFwdC2.sub_attacks 0 (analyzerFor tmplC2 0)) mc)) ∧
    (comboFwdC2.sub_attacks.all (fun sa => decide (sa.type ≠ strTexture)) = true →
      comboPreamble comboFwdC2.sub_attacks 0 (analyzerFor tmplC2 0) =
        (comboFwdC2.sub_attacks.map (fun sa =>
          get_preamble_code sa 0 (analyzerFor tmplC2 0))).flatten) ∧
    create_exam_variant_content tmplC2 comboFwdC2 0 ≠
      create_exam_variant_content tmplC2 comboRevC2 0 :=
  combo_order_sensitivity tmplC2 comboFwdC2 0 rfl

def wmAtkC3 : AttackSpec := .mk strWatermark {} []

/-- C3 counterexample: on a template holding neither the placeholder nor
the body-start marker, composition does not fail: it assembles an output
equal to the template while the generated preamble is nonempty, so the
preamble is silently omitted rather than composition returning no
result. -/
theorem missing_marker_counterexample :
    create_exam_variant_content (strL "hello") wmAtkC3 0 = some (strL "hello") ∧
    get_preamble_code wmAtkC3 0 none ≠ [] := by decide

/-- C3 amended: when the placeholder token is absent from the transformed
body and the body-transform phase itself succeeds (every attack except
symbol_stretch, whose body transform always raises), composition
substitutes the body-start marker by the generated preamble followed by
the marker (insertion immediately before the marker); when the body-start
marker is also absent, composition still returns an assembled result,
equal to the transformed body with the preamble silently omitted, rather
than failing. -/
theorem missing_placeholder_fallback (template : Str) (atk : AttackSpec)
    (context_level : Nat) (mc : Str) (hna : atk.type ≠ strCombo)
    (hmc : modify_body_content template atk context_level
      (analyzerFor template context_level) = some mc)
    (h2 : containsSub mc wmToken = false) :
    create_exam_variant_content template atk context_level =
      some (clearTrapArea (pyReplace mc beginDocToken
        (get_preamble_code atk context_level (analyzerFor template context_level) ++
          '\n' :: beginDocToken))) ∧
    (containsSub mc beginDocToken = false →
      create_exam_variant_content template atk context_level =
        some (clearTrapArea mc)) := by
  have hmain : create_exam_variant_content template atk context_level =
      some (clearTrapArea (pyReplace mc beginDocToken
        (get_preamble_code atk context_level (analyzerFor template context_level) ++
          '\n' :: beginDocToken))) := by
    simp [create_exam_variant_content, composePhases, hna, hmc, insertPreamble, h2]
  refine ⟨hmain, fun h3 => ?_⟩
  rw [hmain, pyReplace_of_not_contains _ _ _ h3]

/-- Witness for C3 on a concrete marker-free template. -/
theorem missing_placeholder_fallback_witness :
    create_exam_variant_content (strL "hi") wmAtkC3 0 =
      some (clearTrapArea (pyReplace (strL "hi") beginDocToken
        (get_preamble_code wmAtkC3 0 (analyzerFor (strL "hi") 0) ++
          '\n' :: beginDocToken))) ∧
    (containsSub (strL "hi") beginDocToken = false →
      create_exam_variant_content (strL "hi") wmAtkC3 0 =
        some (clearTrapArea (strL "hi"))) :=
  missing_placeholder_fallback (strL "hi") wmAtkC3 0 (strL "hi") (by decide) (by decide)
    (by decide)

def docC5 : Str := strL "$\\alpha+\\beta$"

/-- C5 counterexample: on a document whose only mathematics is an inline
expression made of control sequences, the fallback path returns a
candidate that begins with a backslash, refuting the claim that no
returned candidate is a raw control sequence. -/
theorem target_candidates_backslash_counterexample :
    (DocumentAnalyzer.init docC5).get_target_math_for_attacks =
      [strL "\\alpha+\\beta"] ∧
    isPrefixL (strL "\\") (strL "\\alpha+\\beta") = true := by decide

/-- C5 amended: candidateAttackTargets returns at most five strings, each
of length greater than five; candidates derived from math environments
never begin with a backslash, but inline-math fallback candidates may. -/
theorem target_candidates_bounds (a : DocumentAnalyzer) :
    (a.get_target_math_for_attacks).length ≤ 5 ∧
    (a.get_target_math_for_attacks).all (fun t => decide (5 < t.length)) = true ∧
    (envCandidates a).all (fun e => !(isPrefixL (strL "\\") e)) = true := by
  have henv : ∀ e ∈ envCandidates a,
      (5 < e.length) ∧ isPrefixL (strL "\\") e = false := by
    intro e he
    unfold envCandidates at he
    simp only [List.mem_flatten, List.mem_map] at he
    obtain ⟨l, ⟨env, _, rfl⟩, hel⟩ := he
    rw [List.mem_filter] at hel
    have h2 := hel.2
    simp only [Bool.and_eq_true, decide_eq_true_eq, Bool.not_eq_true'] at h2
    exact h2
  have hfb : ∀ e ∈ inlineFallbackCandidates a, 5 < e.length := by
    intro e he
    unfold inlineFallbackCandidates at he
    rw [List.mem_filter] at he
    simpa using he.2
  have hcand : ∀ e ∈ (if (envCandidates a).length < 3 then
      envCandidates a ++ inlineFallbackCandidates a else envCandidates a),
      5 < e.length := by
    intro e he
    by_cases hlen : (envCandidates a).length < 3
    · rw [if_pos hlen] at he
      rcases List.mem_append.mp he with h | h
      · exact (henv e h).1
      · exact hfb e h
    · rw [if_neg hlen] at he
      exact (henv e he).1
  refine ⟨?_, ?_, ?_⟩
  · exact List.length_take_le 5 _
  · rw [List.all_eq_true]
    intro e he
    have := hcand e (List.take_subset 5 _ he)
    simpa using this
  · rw [List.all_eq_true]
    intro e he
    simp [(henv e he).2]

def figDocC6 : Str := strL "\\includegraphics\x7bfig.png\x7d calculus"

/-- C6: every context-level gate of the preamble generator is of the form
level-at-least-threshold and is therefore monotone in the level, and in
particular a tiled watermark at level three on a document with figures
and no explicit text parameter receives both the level-one step increase
and the level-three subject-specific text. -/
theorem context_gate_monotonicity (k k' : Nat) (params : AttackParams)
    (d : Option DocumentAnalyzer) (a : DocumentAnalyzer)
    (hkk : k ≤ k') (hfig : a.has_figures = true) (htext : params.text = none) :
    tiledStepAdjusted k d ≤ tiledStepAdjusted k' d ∧
    tiledTextAdjusted k params d ≤ tiledTextAdjusted k' params d ∧
    textureDensityAdjusted k d ≤ textureDensityAdjusted k' d ∧
    texturePatternAdjusted k params d ≤ texturePatternAdjusted k' params d ∧
    watermarkColorAdjusted k d ≤ watermarkColorAdjusted k' d ∧
    fontSwapSymbolAdjusted k params d ≤ fontSwapSymbolAdjusted k' params d ∧
    dimsPackageCheckGate k d ≤ dimsPackageCheckGate k' d ∧
    tiledEffXStep params 3 (some a) = params.x_step.getD 5 + 1 ∧
    tiledEffYStep params 3 (some a) = params.y_step.getD 4 + 1 ∧
    tiledEffText params 3 (some a) =
      subjectTiledText a.get_subject_hint (params.text.getD strWATERMARK) := by
  have hstep : tiledStepAdjusted 3 (some a) = true := by
    simp [tiledStepAdjusted, docFigs, hfig]
  refine ⟨?_, ?_, ?_, ?_, ?_, ?_, ?_, ?_, ?_, ?_⟩
  · exact band_le_band_left _ _ _ (decide_le_decide_of_le 1 k k' hkk)
  · exact band_le_band_left _ _ _
      (band_le_band_left _ _ _ (decide_le_decide_of_le 3 k k' hkk))
  · exact band_le_band_left _ _ _ (decide_le_decide_of_le 1 k k' hkk)
  · exact band_le_band_left _ _ _
      (band_le_band_left _ _ _ (decide_le_decide_of_le 3 k k' hkk))
  · exact band_le_band_left _ _ _ (decide_le_decide_of_le 2 k k' hkk)
  · exact band_le_band_left _ _ _
      (band_le_band_left _ _ _ (decide_le_decide_of_le 2 k k' hkk))
  · exact band_le_band_left _ _ _ (decide_le_decide_of_le 2 k k' hkk)
  · simp [tiledEffXStep, hstep]
  · simp [tiledEffYStep, hstep]
  · simp [tiledEffText, tiledTextAdjusted, htext]

/-- Witness for C6 at levels one and three on a concrete document holding
a figure and a calculus keyword. -/
theorem context_gate_monotonicity_witness :
    tiledStepAdjusted 1 (some (DocumentAnalyzer.init figDocC6)) ≤
      tiledStepAdjusted 3 (some (DocumentAnalyzer.init figDocC6)) ∧
    tiledTextAdjusted 1 {} (some (DocumentAnalyzer.init figDocC6)) ≤
      tiledTextAdjusted 3 {} (some (DocumentAnalyzer.init figDocC6)) ∧
    textureDensityAdjusted 1 (some (DocumentAnalyzer.init figDocC6)) ≤
      textureDensityAdjusted 3 (some (DocumentAnalyzer.init figDocC6)) ∧
    texturePatternAdjusted 1 {} (some (DocumentAnalyzer.init figDocC6)) ≤
      texturePatternAdjusted 3 {} (some (DocumentAnalyzer.init figDocC6)) ∧
    watermarkColorAdjusted 1 (some (DocumentAnalyzer.init figDocC6)) ≤
      watermarkColorAdjusted 3 (some (DocumentAnalyzer.init figDocC6)) ∧
    fontSwapSymbolAdjusted 1 {} (some (DocumentAnalyzer.init figDocC6)) ≤
      fontSwapSymbolAdjusted 3 {} (some (DocumentAnalyzer.init figDocC6)) ∧
    dimsPackageCheckGate 1 (some (DocumentAnalyzer.init figDocC6)) ≤
      dimsPackageCheckGate 3 (some (DocumentAnalyzer.init figDocC6)) ∧
    tiledEffXStep {} 3 (some (DocumentAnalyzer.init figDocC6)) =
      ({} : AttackParams).x_step.getD 5 + 1 ∧
    tiledEffYStep {} 3 (some (DocumentAnalyzer.init figDocC6)) =
      ({} : AttackParams).y_step.getD 4 + 1 ∧
    tiledEffText {} 3 (some (DocumentAnalyzer.init figDocC6)) =
      subjectTiledText (DocumentAnalyzer.init figDocC6).get_subject_hint
        (({} : AttackParams).text.getD strWATERMARK) :=
  context_gate_monotonicity 1 3 {} (some (DocumentAnalyzer.init figDocC6))
    (DocumentAnalyzer.init figDocC6) (by decide) (by decide) rfl

/-- C9: a tiled watermark with x-step four and y-step three, absent the
level-one figure adjustment, renders loop bounds whose second sequence
terms are five and four: the generated code holds the bound lists
beginning one, five, dots, twenty and one, four, dots, twenty-eight. -/
theorem tiled_loop_bounds (atk : AttackSpec) (context_level : Nat)
    (d : Option DocumentAnalyzer)
    (hty : atk.type = strWatermarkTiled)
    (hx : atk.params.x_step = some 4) (hy : atk.params.y_step = some 3)
    (hadj : tiledStepAdjusted context_level d = false) :
    containsSub (get_preamble_code atk context_level d) (strL "\x7b1,5,...,20\x7d") = true ∧
    containsSub (get_preamble_code atk context_level d) (strL "\x7b1,4,...,28\x7d") = true := by
  have hxs : tiledEffXStep atk.params context_level d = 4 := by
    simp [tiledEffXStep, hx, hadj]
  have hys : tiledEffYStep atk.params context_level d = 3 := by
    simp [tiledEffYStep, hy, hadj]
  have hgpc : get_preamble_code atk context_level d =
      dimsCode atk.type context_level d ++
      watermarkTiledCode (tiledEffText atk.params context_level d)
        (atk.params.color.getD (strL "gray!12")) (atk.params.size.getD 8)
        (atk.params.angle.getD 30) 4 3 := by
    rw [← hxs, ← hys]
    simp +decide [get_preamble_code, hty]
  rw [hgpc]
  constructor
  · apply contains_append_right
    unfold watermarkTiledCode
    apply contains_append_left
    decide
  · apply contains_append_right
    unfold watermarkTiledCode
    apply contains_append_left
    decide

def tiledAtkC9 : AttackSpec :=
  .mk strWatermarkTiled { x_step := some 4, y_step := some 3 } []

/-- Witness for C9 at context level zero without an analyzer. -/
theorem tiled_loop_bounds_witness :
    containsSub (get_preamble_code tiledAtkC9 0 none) (strL "\x7b1,5,...,20\x7d") = true ∧
    containsSub (get_preamble_code tiledAtkC9 0 none) (strL "\x7b1,4,...,28\x7d") = true :=
  tiled_loop_bounds tiledAtkC9 0 none rfl rfl rfl (by decide)
